import Mathlib

/-!
Verification of `src/perplexity/lib/temporal_summary.py`.

The module exposes one pure function, `synthesize_temporal_summary`, mapping
an experiment record (six optional fields) to a structured summary.  We embed
the record as a structure of `Option` fields (a missing dictionary key is
`none`; `Option.getD` mirrors the Python `record.get(key, default)`), and the
score arithmetic over `ℚ`.

On floating point: the Python code computes
`round(0.5 + 0.35 * ((len_sum % 7) / 7.0), 2)` with IEEE doubles.  For every
remainder `r ∈ 0..6` the double result of that expression rounds at two
decimals to exactly `0.5 + 0.05 * r` (the exact rational value of the same
expression, which is already a multiple of `1/100`, so two-decimal rounding
is the identity on it and no half-way tie ever arises).  The rational
embedding below is therefore value-exact for every input.
-/

namespace TemporalSummary

/-- Input record: mirrors the `ExperimentRecord` TypedDict (`total=False`,
so every key may be absent, modelled by `Option`). -/
structure ExperimentRecord where
  past_state : Option String := none
  future_constraint : Option String := none
  final_state : Option String := none
  seed : Option Int := none
  iterations : Option Int := none
  notes : Option String := none
deriving DecidableEq

/-- The `experiment_details` echo dictionary: a closed mapping with three
text fields, two integer fields and a notes field. -/
structure ExperimentDetails where
  past_state : String
  future_constraint : String
  final_state : String
  seed : Int
  iterations : Int
  notes : String
deriving DecidableEq

/-- Output record: mirrors the `ExperimentSummary` TypedDict. -/
structure ExperimentSummary where
  consistency_score : ℚ
  convergence_notes : String
  disclaimer : String
  experiment_details : ExperimentDetails
deriving DecidableEq

/-- Two-decimal rounding, mirroring the Python `round(x, 2)`.  Python rounds
half to even; every value this program rounds is an exact multiple of
`1/100`, so no tie arises and any tie-breaking convention agrees. -/
def round2 (q : ℚ) : ℚ := (round (q * 100) : ℚ) / 100

/-- The constant disclaimer string built at lines 108-114 of the source
(concatenation of the five adjacent literals). -/
def disclaimer_text : String :=
  "DISCLAIMER: This summary is generated from classical computational inference. It does NOT represent physical retrocausality or actual backward time propagation. All analysis is performed using standard forward-time simulation with post-hoc constraint evaluation. Results should be interpreted as theoretical exploration of time-symmetric scenarios, not as evidence of acausal phenomena."

/-- The `if/elif/elif/else` chain on `iterations` at lines 94-101 selecting
the base convergence sentence (`str(iterations)` is `toString`). -/
def convergence_base (iterations : Int) : String :=
  if iterations = 0 then
    "No iterations recorded; unable to assess convergence."
  else if iterations < 100 then
    "Simulation ran for " ++ toString iterations ++ " iterations. Early termination detected; results may not represent full convergence."
  else if iterations < 1000 then
    "Simulation completed " ++ toString iterations ++ " iterations with moderate convergence characteristics."
  else
    "Simulation completed " ++ toString iterations ++ " iterations with good convergence behavior. Stable solution reached."

/-- The seed suffixing at lines 104-105: append the reproducibility tag
exactly when `seed > 0`. -/
def seed_suffixed (seed : Int) (base : String) : String :=
  if 0 < seed then base ++ " (Reproducible with seed=" ++ toString seed ++ ")" else base

/-- The consistency score at lines 85-91: `0` unless all three strings are
truthy (non-empty), else the rounded length formula.  `len` on a Python
`str` counts code points, as `String.length` does. -/
def consistency_score_of (past_state future_constraint final_state : String) : ℚ :=
  if past_state ≠ "" ∧ future_constraint ≠ "" ∧ final_state ≠ "" then
    round2 (1/2 + (35/100) *
      ((((past_state.length + future_constraint.length + final_state.length) % 7 : ℕ) : ℚ) / 7))
  else 0

/-- The function `synthesize_temporal_summary` (lines 36-131).  Field
extraction with defaults mirrors `record.get(key, default)`; the
`x or placeholder` idiom on strings is the empty-string test. -/
def synthesize_temporal_summary (record : ExperimentRecord) : ExperimentSummary :=
  let past_state := record.past_state.getD ""
  let future_constraint := record.future_constraint.getD ""
  let final_state := record.final_state.getD ""
  let seed := record.seed.getD 0
  let iterations := record.iterations.getD 0
  let notes := record.notes.getD ""
  { consistency_score := consistency_score_of past_state future_constraint final_state
    convergence_notes := seed_suffixed seed (convergence_base iterations)
    disclaimer := disclaimer_text
    experiment_details :=
      { past_state := if past_state = "" then "(not specified)" else past_state
        future_constraint := if future_constraint = "" then "(not specified)" else future_constraint
        final_state := if final_state = "" then "(not specified)" else final_state
        seed := seed
        iterations := iterations
        notes := if notes = "" then "(none)" else notes } }

/-- A record with every key present (the minimal example of the demo). -/
def sample_record : ExperimentRecord :=
  { past_state := some "initial"
    future_constraint := some "target"
    final_state := some "result"
    seed := some 123
    iterations := some 50
    notes := some "Quick test run" }

/-- A record with every key absent. -/
def empty_record : ExperimentRecord := {}

/-- The first demo record (notes omitted; notes never affect score or
convergence text). -/
def example1_record : ExperimentRecord :=
  { past_state := some "quantum_system_ground_state"
    future_constraint := some "excited_state_target_energy_5.2eV"
    final_state := some "excited_state_achieved_energy_5.18eV"
    seed := some 42
    iterations := some 1500 }

/-- A record with a negative iteration count. -/
def negative_record : ExperimentRecord := { iterations := some (-5) }

/-- Shared evaluation lemma: the rounded score expression at remainder `rem`
is exactly `(50 + 5 * rem) / 100` (the product with `100` is an integer, so
rounding is the identity). -/
theorem round2_half_add (rem : ℕ) :
    round2 (1/2 + (35/100) * ((rem : ℚ) / 7)) = (50 + 5 * rem) / 100 := by
  have h : (1/2 + (35/100) * ((rem : ℚ) / 7)) * 100 = ((50 + 5 * rem : ℕ) : ℤ) := by
    push_cast
    ring
  rw [round2, h, round_intCast]
  push_cast
  ring

/-- C1: for every record whose three state strings are non-empty, the
consistency score is the two-decimal rounding of
`0.5 + 0.35 * ((len_sum % 7) / 7)` where `len_sum` is the total character
length of the three strings. -/
theorem score_formula_exact (r : ExperimentRecord)
    (hp : r.past_state.getD "" ≠ "")
    (hf : r.future_constraint.getD "" ≠ "")
    (hs : r.final_state.getD "" ≠ "") :
    (synthesize_temporal_summary r).consistency_score =
      round2 (1/2 + (35/100) *
        (((((r.past_state.getD "").length + (r.future_constraint.getD "").length +
            (r.final_state.getD "").length) % 7 : ℕ) : ℚ) / 7)) := by
  simp [synthesize_temporal_summary, consistency_score_of, hp, hf, hs]

/-- Witness for C1 at the minimal demo record: lengths 7 + 6 + 6 = 19,
remainder 5, score 0.75. -/
theorem score_formula_exact_witness :
    (synthesize_temporal_summary sample_record).consistency_score = 3/4 := by
  have h := score_formula_exact sample_record (by decide) (by decide) (by decide)
  have h5 : (((sample_record.past_state.getD "").length +
      (sample_record.future_constraint.getD "").length +
      (sample_record.final_state.getD "").length) % 7 : ℕ) = 5 := rfl
  rw [h, h5, round2_half_add 5]
  norm_num

/-- C2: the consistency score always lies in `[0, 0.85]`, and it is exactly
`0` whenever any of the three state strings is empty or absent. -/
theorem score_bounded (r : ExperimentRecord) :
    (0 ≤ (synthesize_temporal_summary r).consistency_score ∧
      (synthesize_temporal_summary r).consistency_score ≤ 85/100) ∧
    ((r.past_state.getD "" = "" ∨ r.future_constraint.getD "" = "" ∨
        r.final_state.getD "" = "") →
      (synthesize_temporal_summary r).consistency_score = 0) := by
  have key : ∀ p f s : String,
      0 ≤ consistency_score_of p f s ∧ consistency_score_of p f s ≤ 85/100 := by
    intro p f s
    unfold consistency_score_of
    split
    · rw [round2_half_add]
      have hlt : (p.length + f.length + s.length) % 7 ≤ 6 := by omega
      have hc : (((p.length + f.length + s.length) % 7 : ℕ) : ℚ) ≤ 6 := by
        exact_mod_cast hlt
      constructor
      · positivity
      · linarith
    · norm_num
  refine ⟨key _ _ _, ?_⟩
  rintro (h | h | h) <;>
    simp [synthesize_temporal_summary, consistency_score_of, h]

/-- Witness for C2: the all-absent record has score exactly 0, via the
emptiness clause of the bound theorem. -/
theorem score_bounded_witness :
    (synthesize_temporal_summary empty_record).consistency_score = 0 :=
  (score_bounded empty_record).2 (Or.inl rfl)

/-- C7: the disclaimer is the one constant string, independent of the
input record. -/
theorem disclaimer_constant (r : ExperimentRecord) :
    (synthesize_temporal_summary r).disclaimer = disclaimer_text := rfl

/-- C3: the convergence base sentence is selected by exact integer
thresholds on the iterations value: 0, then below 100, then below 1000,
then at least 1000 (the seed suffixing applies uniformly afterwards). -/
theorem convergence_thresholds (r : ExperimentRecord) :
    (r.iterations.getD 0 = 0 →
      (synthesize_temporal_summary r).convergence_notes =
        seed_suffixed (r.seed.getD 0)
          "No iterations recorded; unable to assess convergence.") ∧
    (0 < r.iterations.getD 0 → r.iterations.getD 0 < 100 →
      (synthesize_temporal_summary r).convergence_notes =
        seed_suffixed (r.seed.getD 0)
          ("Simulation ran for " ++ toString (r.iterations.getD 0) ++
            " iterations. Early termination detected; results may not represent full convergence.")) ∧
    (100 ≤ r.iterations.getD 0 → r.iterations.getD 0 < 1000 →
      (synthesize_temporal_summary r).convergence_notes =
        seed_suffixed (r.seed.getD 0)
          ("Simulation completed " ++ toString (r.iterations.getD 0) ++
            " iterations with moderate convergence characteristics.")) ∧
    (1000 ≤ r.iterations.getD 0 →
      (synthesize_temporal_summary r).convergence_notes =
        seed_suffixed (r.seed.getD 0)
          ("Simulation completed " ++ toString (r.iterations.getD 0) ++
            " iterations with good convergence behavior. Stable solution reached.")) := by
  refine ⟨?_, ?_, ?_, ?_⟩
  · intro h0
    simp [synthesize_temporal_summary, convergence_base, h0]
  · intro h1 h2
    have h0 : ¬ r.iterations.getD 0 = 0 := by omega
    simp [synthesize_temporal_summary, convergence_base, h0, h2]
  · intro h1 h2
    have h0 : ¬ r.iterations.getD 0 = 0 := by omega
    have h100 : ¬ r.iterations.getD 0 < 100 := by omega
    simp [synthesize_temporal_summary, convergence_base, h0, h100, h2]
  · intro h1
    have h0 : ¬ r.iterations.getD 0 = 0 := by omega
    have h100 : ¬ r.iterations.getD 0 < 100 := by omega
    have h1000 : ¬ r.iterations.getD 0 < 1000 := by omega
    simp [synthesize_temporal_summary, convergence_base, h0, h100, h1000]

/-- Witness for C3 at the boundary points 0, 99, 100, 999, 1000 (seed
absent, so no suffix). -/
theorem convergence_thresholds_witness :
    (synthesize_temporal_summary empty_record).convergence_notes =
      "No iterations recorded; unable to assess convergence." ∧
    (synthesize_temporal_summary { iterations := some 99 }).convergence_notes =
      "Simulation ran for 99 iterations. Early termination detected; results may not represent full convergence." ∧
    (synthesize_temporal_summary { iterations := some 100 }).convergence_notes =
      "Simulation completed 100 iterations with moderate convergence characteristics." ∧
    (synthesize_temporal_summary { iterations := some 999 }).convergence_notes =
      "Simulation completed 999 iterations with moderate convergence characteristics." ∧
    (synthesize_temporal_summary { iterations := some 1000 }).convergence_notes =
      "Simulation completed 1000 iterations with good convergence behavior. Stable solution reached." := by
  refine ⟨?_, ?_, ?_, ?_, ?_⟩
  · exact ((convergence_thresholds empty_record).1 (by decide)).trans (by decide)
  · exact ((convergence_thresholds { iterations := some 99 }).2.1
      (by decide) (by decide)).trans (by decide)
  · exact ((convergence_thresholds { iterations := some 100 }).2.2.1
      (by decide) (by decide)).trans (by decide)
  · exact ((convergence_thresholds { iterations := some 999 }).2.2.1
      (by decide) (by decide)).trans (by decide)
  · exact ((convergence_thresholds { iterations := some 1000 }).2.2.2
      (by decide)).trans (by decide)

/-- C4: when the seed is positive the convergence notes are the selected
base sentence, a space, and the reproducibility tag, as one concatenated
string; when the seed is zero or negative, no suffix is appended. -/
theorem seed_suffix_behavior (r : ExperimentRecord) :
    (0 < r.seed.getD 0 →
      (synthesize_temporal_summary r).convergence_notes =
        convergence_base (r.iterations.getD 0) ++
          " (Reproducible with seed=" ++ toString (r.seed.getD 0) ++ ")") ∧
    (r.seed.getD 0 ≤ 0 →
      (synthesize_temporal_summary r).convergence_notes =
        convergence_base (r.iterations.getD 0)) := by
  constructor
  · intro h
    simp [synthesize_temporal_summary, seed_suffixed, h]
  · intro h
    simp [synthesize_temporal_summary, seed_suffixed, not_lt.mpr h]

/-- Witness for C4: seed 123 appends the tag on the early-termination
sentence; the absent (default 0) seed appends nothing. -/
theorem seed_suffix_behavior_witness :
    (synthesize_temporal_summary sample_record).convergence_notes =
      "Simulation ran for 50 iterations. Early termination detected; results may not represent full convergence. (Reproducible with seed=123)" ∧
    (synthesize_temporal_summary empty_record).convergence_notes =
      "No iterations recorded; unable to assess convergence." := by
  constructor
  · exact ((seed_suffix_behavior sample_record).1 (by decide)).trans (by decide)
  · exact ((seed_suffix_behavior empty_record).2 (by decide)).trans (by decide)

/-- C5: each text field of the details echo is replaced by its placeholder
exactly when the extracted value is empty and is echoed unchanged
otherwise, while seed and iterations are echoed numerically with no
substitution. -/
theorem details_echo (r : ExperimentRecord) :
    (synthesize_temporal_summary r).experiment_details.past_state =
      (if r.past_state.getD "" = "" then "(not specified)" else r.past_state.getD "") ∧
    (synthesize_temporal_summary r).experiment_details.future_constraint =
      (if r.future_constraint.getD "" = "" then "(not specified)" else r.future_constraint.getD "") ∧
    (synthesize_temporal_summary r).experiment_details.final_state =
      (if r.final_state.getD "" = "" then "(not specified)" else r.final_state.getD "") ∧
    (synthesize_temporal_summary r).experiment_details.notes =
      (if r.notes.getD "" = "" then "(none)" else r.notes.getD "") ∧
    (synthesize_temporal_summary r).experiment_details.seed = r.seed.getD 0 ∧
    (synthesize_temporal_summary r).experiment_details.iterations = r.iterations.getD 0 :=
  ⟨rfl, rfl, rfl, rfl, rfl, rfl⟩

/-- C6: the function is deterministic: records with identical field values
yield identical summaries in every component. -/
theorem synthesize_deterministic (r1 r2 : ExperimentRecord)
    (h1 : r1.past_state = r2.past_state)
    (h2 : r1.future_constraint = r2.future_constraint)
    (h3 : r1.final_state = r2.final_state)
    (h4 : r1.seed = r2.seed)
    (h5 : r1.iterations = r2.iterations)
    (h6 : r1.notes = r2.notes) :
    synthesize_temporal_summary r1 = synthesize_temporal_summary r2 := by
  have hr : r1 = r2 := by
    obtain ⟨a1, b1, c1, d1, e1, f1⟩ := r1
    obtain ⟨a2, b2, c2, d2, e2, f2⟩ := r2
    simp_all
  rw [hr]

/-- Witness for C6 at two syntactically equal records. -/
theorem synthesize_deterministic_witness :
    synthesize_temporal_summary sample_record = synthesize_temporal_summary sample_record :=
  synthesize_deterministic sample_record sample_record rfl rfl rfl rfl rfl rfl

/-- Shared evaluation: the score of the first demo record.  The actual
lengths are 27, 33 and 36, so the length sum is 96, the remainder is 5,
and the score is 0.75. -/
theorem example1_score_eval :
    (synthesize_temporal_summary example1_record).consistency_score = 3/4 := by
  have h := score_formula_exact example1_record (by decide) (by decide) (by decide)
  have h5 : (((example1_record.past_state.getD "").length +
      (example1_record.future_constraint.getD "").length +
      (example1_record.final_state.getD "").length) % 7 : ℕ) = 5 := rfl
  rw [h, h5, round2_half_add 5]
  norm_num

/-- C8 counterexample: on the first demo record the score is not 0.5 (the
length sum is 96, not 98 as the claim computes), so the claimed output pair
is false. -/
theorem example1_claim_false :
    ¬ ((synthesize_temporal_summary example1_record).consistency_score = 1/2 ∧
      (synthesize_temporal_summary example1_record).convergence_notes =
        "Simulation completed 1500 iterations with good convergence behavior. Stable solution reached. (Reproducible with seed=42)") := by
  intro h
  have hs := example1_score_eval
  rw [h.1] at hs
  exact absurd hs (by norm_num)

/-- C8 amended: on the first demo record the score is 0.75 and the
convergence notes are as claimed. -/
theorem example1_actual :
    (synthesize_temporal_summary example1_record).consistency_score = 3/4 ∧
    (synthesize_temporal_summary example1_record).convergence_notes =
      "Simulation completed 1500 iterations with good convergence behavior. Stable solution reached. (Reproducible with seed=42)" :=
  ⟨example1_score_eval, by decide⟩

/-- C9: a record with a field absent and the same record with that field
set to its documented default produce identical summaries, for each of the
six fields. -/
theorem absent_field_eq_default (r : ExperimentRecord) :
    synthesize_temporal_summary { r with past_state := none } =
      synthesize_temporal_summary { r with past_state := some "" } ∧
    synthesize_temporal_summary { r with future_constraint := none } =
      synthesize_temporal_summary { r with future_constraint := some "" } ∧
    synthesize_temporal_summary { r with final_state := none } =
      synthesize_temporal_summary { r with final_state := some "" } ∧
    synthesize_temporal_summary { r with seed := none } =
      synthesize_temporal_summary { r with seed := some 0 } ∧
    synthesize_temporal_summary { r with iterations := none } =
      synthesize_temporal_summary { r with iterations := some 0 } ∧
    synthesize_temporal_summary { r with notes := none } =
      synthesize_temporal_summary { r with notes := some "" } := by
  obtain ⟨a, b, c, d, e, f⟩ := r
  exact ⟨rfl, rfl, rfl, rfl, rfl, rfl⟩

/-- C10: a negative iteration count flows through the threshold chain into
the early-termination branch (it is nonzero and below 100), with the
negative value interpolated, and is echoed unchanged in the details. -/
theorem negative_iterations_flow (r : ExperimentRecord)
    (h : r.iterations.getD 0 < 0) :
    (synthesize_temporal_summary r).convergence_notes =
      seed_suffixed (r.seed.getD 0)
        ("Simulation ran for " ++ toString (r.iterations.getD 0) ++
          " iterations. Early termination detected; results may not represent full convergence.") ∧
    (synthesize_temporal_summary r).experiment_details.iterations =
      r.iterations.getD 0 := by
  have h0 : ¬ r.iterations.getD 0 = 0 := by omega
  have h100 : r.iterations.getD 0 < 100 := by omega
  exact ⟨by simp [synthesize_temporal_summary, convergence_base, h0, h100], rfl⟩

/-- Witness for C10 at iterations -5: the sentence interpolates -5 and the
echo keeps -5. -/
theorem negative_iterations_flow_witness :
    (synthesize_temporal_summary negative_record).convergence_notes =
      "Simulation ran for -5 iterations. Early termination detected; results may not represent full convergence." ∧
    (synthesize_temporal_summary negative_record).experiment_details.iterations = -5 := by
  have h := negative_iterations_flow negative_record (by decide)
  exact ⟨h.1.trans (by decide), h.2.trans (by decide)⟩

end TemporalSummary
